import Mathlib

/-!
Shallow embedding of the SkillSwap real-time messaging core
(`Backend/api/db.py`, `Backend/api/messages/consumers.py`,
`Backend/api/notifications.py`).

MongoDB ObjectIds are modelled as natural numbers (allocated from a
`nextId` counter), datetimes as natural numbers, and each Mongo
collection as a list of records.  `find_one` is the first list element
matching the query, `insert_one` appends, and `update_one` rewrites the
first matching element.  Fallible Python functions (those that `raise
ValueError`) return `Except String`; every function threads the store
explicitly, returning the (possibly unchanged) store next to its result.
-/

set_option maxRecDepth 8000

namespace SkillSwap

/-- A user document (only the fields the messaging slice reads:
`name` for notification titles, `last_seen` for replay). -/
structure UserRec where
  id : Nat
  name : String
  lastSeen : Option Nat
deriving DecidableEq

/-- A conversation document, as created by `get_or_create_conversation`. -/
structure Conversation where
  id : Nat
  participants : List Nat
  lastMessage : String
  lastMessageTimestamp : Option Nat
  unreadCounts : List (Nat × Nat)
  createdAt : Nat
  updatedAt : Nat
deriving DecidableEq

/-- A message document, as created by `create_message`.  The fields
`is_edited`/`edited_at`/`is_deleted`/`deleted_at` are absent from a
fresh Mongo document and materialise on first `$set`; they are modelled
as fields with the pre-`$set` default values. -/
structure Message where
  id : Nat
  conversationId : Nat
  senderId : Nat
  text : String
  attachments : List String
  timestamp : Nat
  isRead : Bool
  readAt : Option Nat
  isEdited : Bool := false
  editedAt : Option Nat := none
  isDeleted : Bool := false
  deletedAt : Option Nat := none
deriving DecidableEq

/-- A notification document, as created by `create_notification`. -/
structure Notification where
  id : Nat
  userId : Nat
  ntype : String
  title : String
  body : String
  relatedId : Option Nat
  isRead : Bool
  createdAt : Nat
deriving DecidableEq

/-- The MongoDB store: one list per collection plus the ObjectId
allocator. -/
structure Db where
  users : List UserRec
  conversations : List Conversation
  messages : List Message
  notifications : List Notification
  nextId : Nat
deriving DecidableEq

/-! ### Generic collection helpers (find_one / update_one on a list) -/

/-- Model of `find_one` on a collection keyed by `key`: the first matching
document. -/
def findBy (key : α → Nat) (k : Nat) : List α → Option α
  | [] => none
  | x :: xs => if key x = k then some x else findBy key k xs

/-- Model of `update_one` on a collection keyed by `key`: rewrite the first
matching document with `f`. -/
def updateFirstBy (key : α → Nat) (k : Nat) (f : α → α) : List α → List α
  | [] => []
  | x :: xs => if key x = k then f x :: xs else x :: updateFirstBy key k f xs

theorem findBy_updateFirstBy (key : α → Nat) (k : Nat) (f : α → α)
    (hf : ∀ x, key (f x) = key x) :
    ∀ l : List α, findBy key k (updateFirstBy key k f l) = (findBy key k l).map f := by
  intro l
  induction l with
  | nil => simp [findBy, updateFirstBy]
  | cons x xs ih =>
    by_cases h : key x = k
    · simp [findBy, updateFirstBy, h, hf]
    · simp only [findBy, updateFirstBy, if_neg h]
      exact ih

theorem updateFirstBy_ne (key : α → Nat) (k : Nat) (f : α → α) :
    ∀ l : List α, ∀ x, findBy key k l = some x → f x ≠ x →
      updateFirstBy key k f l ≠ l := by
  intro l
  induction l with
  | nil => intro x hx; simp [findBy] at hx
  | cons y ys ih =>
    intro x hx hfx
    by_cases h : key y = k
    · have hxy : x = y := by
        simp only [findBy, if_pos h] at hx
        exact (Option.some_inj.mp hx).symm
      subst hxy
      simp only [updateFirstBy, if_pos h]
      intro he
      exact hfx (List.cons_eq_cons.mp he).1
    · have hx' : findBy key k ys = some x := by
        simpa only [findBy, if_neg h] using hx
      simp only [updateFirstBy, if_neg h]
      intro he
      exact ih x hx' hfx (List.cons_eq_cons.mp he).2

/-! ### Python-dict helpers for `unread_counts` and
`last_seen_timestamps` (association lists with unique keys, assignment
replaces the first binding or appends) -/

/-- First binding of key `u` in an association list. -/
def lookupCount (u : Nat) : List (Nat × Nat) → Option Nat
  | [] => none
  | p :: ps => if p.1 = u then some p.2 else lookupCount u ps

/-- Read `d.get(u, 0)`: the unread counter of `u` (Mongo `$inc`
treats a missing field as `0`). -/
def getCount (l : List (Nat × Nat)) (u : Nat) : Nat :=
  (lookupCount u l).getD 0

/-- Write `d[u] = v` on an association list. -/
def setCount (l : List (Nat × Nat)) (u : Nat) (v : Nat) : List (Nat × Nat) :=
  match l with
  | [] => [(u, v)]
  | p :: ps => if p.1 = u then (u, v) :: ps else p :: setCount ps u v

theorem getCount_setCount_self (l : List (Nat × Nat)) (u v : Nat) :
    getCount (setCount l u v) u = v := by
  induction l with
  | nil => simp [getCount, setCount, lookupCount]
  | cons p ps ih =>
    by_cases h : p.1 = u
    · simp [getCount, setCount, lookupCount, h]
    · simp only [setCount, if_neg h, getCount, lookupCount]
      exact ih

theorem getCount_setCount_other (l : List (Nat × Nat)) (u v w : Nat) (h : w ≠ u) :
    getCount (setCount l u v) w = getCount l w := by
  induction l with
  | nil => simp [getCount, setCount, lookupCount, Ne.symm h]
  | cons p ps ih =>
    by_cases hp : p.1 = u
    · simp [getCount, setCount, lookupCount, hp, Ne.symm h]
    · by_cases hw : p.1 = w
      · simp [getCount, setCount, lookupCount, hp, hw, h]
      · simp only [setCount, if_neg hp, getCount, lookupCount, if_neg hw]
        exact ih

/-- Assignment into the session's `last_seen_timestamps` dict
(values may be `None`, hence `Option Nat`). -/
def setLS (l : List (Nat × Option Nat)) (k : Nat) (v : Option Nat) :
    List (Nat × Option Nat) :=
  match l with
  | [] => [(k, v)]
  | p :: ps => if p.1 = k then (k, v) :: ps else p :: setLS ps k v

/-- Lookup in `last_seen_timestamps` (`dict.get`, absent key ↦ `none`). -/
def getLS (l : List (Nat × Option Nat)) (k : Nat) : Option (Option Nat) :=
  match l with
  | [] => none
  | p :: ps => if p.1 = k then some p.2 else getLS ps k

/-! ### Python `str.strip()` -/

/-- Drop leading whitespace characters. -/
def lstripChars : List Char → List Char
  | [] => []
  | c :: cs => if c.isWhitespace then lstripChars cs else c :: cs

/-- Python `str.strip()`: drop whitespace from both ends. -/
def pyStrip (s : String) : String :=
  ⟨(lstripChars (lstripChars s.data.reverse).reverse)⟩

/-! ### Ordering on messages (Mongo `.sort('timestamp', 1)` / `-1`) -/

/-- Ascending timestamp order used by `get_messages_after_timestamp`. -/
def tsLe (a b : Message) : Prop := a.timestamp ≤ b.timestamp

/-- Descending timestamp order used by `get_messages_by_conversation`. -/
def tsGe (a b : Message) : Prop := b.timestamp ≤ a.timestamp

instance : DecidableRel tsLe := fun a b => Nat.decLe a.timestamp b.timestamp

instance : DecidableRel tsGe := fun a b => Nat.decLe b.timestamp a.timestamp

instance : IsTotal Message tsLe := ⟨fun a b => Nat.le_total a.timestamp b.timestamp⟩

instance : IsTrans Message tsLe := ⟨fun _ _ _ h h' => Nat.le_trans h h'⟩

/-! ### Collection accessors (`db.py` helper functions) -/

/-- Model of `get_conversation_by_id`. -/
def findConv (db : Db) (cid : Nat) : Option Conversation :=
  findBy Conversation.id cid db.conversations

/-- Model of `get_message_by_id`. -/
def findMsg (db : Db) (mid : Nat) : Option Message :=
  findBy Message.id mid db.messages

/-- Lookup of a user document by its Mongo id. -/
def findUser (db : Db) (uid : Nat) : Option UserRec :=
  findBy UserRec.id uid db.users

/-- Model of `db.py get_or_create_conversation`: validate that exactly two
distinct participants were given, canonicalize the pair by sorting,
return the existing conversation for that sorted pair or insert a new
one with empty last-message fields and zeroed unread counters. -/
def get_or_create_conversation (db : Db) (now : Nat) (participantIds : List Nat) :
    Except String Conversation × Db :=
  if participantIds.length ≠ 2 then
    (Except.error "conversation must have exactly 2 participants", db)
  else
    let participantOids :=
      participantIds.foldl (fun acc pid => if pid ∈ acc then acc else acc ++ [pid]) []
    if participantOids.length ≠ 2 then
      (Except.error "participants must be unique", db)
    else
      let sortedOids := List.insertionSort (fun a b : Nat => a ≤ b) participantOids
      match db.conversations.find? (fun c => c.participants == sortedOids) with
      | some existing => (Except.ok existing, db)
      | none =>
        let conversationData : Conversation :=
          { id := db.nextId
            participants := sortedOids
            lastMessage := ""
            lastMessageTimestamp := none
            unreadCounts := [(sortedOids.headD 0, 0), (sortedOids.getD 1 0, 0)]
            createdAt := now
            updatedAt := now }
        (Except.ok conversationData,
         { db with conversations := db.conversations ++ [conversationData]
                   nextId := db.nextId + 1 })

/-- Model of `db.py get_user_conversations`: all conversations containing the
user, newest `updated_at` first. -/
def get_user_conversations (db : Db) (userId : Nat) : List Conversation :=
  List.insertionSort (fun a b : Conversation => b.updatedAt ≤ a.updatedAt)
    (db.conversations.filter (fun c => userId ∈ c.participants))

/-- Model of `db.py update_conversation_last_message`: set the last-message
display fields and `updated_at` on the conversation.  The returned
`Bool` is Mongo's `modified_count > 0`. -/
def update_conversation_last_message (db : Db) (cid : Nat) (messageText : String)
    (timestamp : Option Nat) (now : Nat) : Bool × Db :=
  let newConversations := updateFirstBy Conversation.id cid
    (fun c => { c with lastMessage := messageText, lastMessageTimestamp := timestamp,
                       updatedAt := now }) db.conversations
  (decide (newConversations ≠ db.conversations),
   { db with conversations := newConversations })

/-- Model of `db.py increment_unread_count`: increment `unread_counts.<user>` (a
missing counter field starts at 0). -/
def increment_unread_count (db : Db) (cid userId : Nat) : Bool × Db :=
  let newConversations := updateFirstBy Conversation.id cid
    (fun c => { c with unreadCounts :=
                  setCount c.unreadCounts userId (getCount c.unreadCounts userId + 1) })
    db.conversations
  (decide (newConversations ≠ db.conversations),
   { db with conversations := newConversations })

/-- Model of `db.py reset_unread_count`: set `unread_counts.<user> = 0`. -/
def reset_unread_count (db : Db) (cid userId : Nat) : Bool × Db :=
  let newConversations := updateFirstBy Conversation.id cid
    (fun c => { c with unreadCounts := setCount c.unreadCounts userId 0 })
    db.conversations
  (decide (newConversations ≠ db.conversations),
   { db with conversations := newConversations })

/-- The closed enumeration of notification types
(`notifications.py NOTIFICATION_TYPES` / `db.py create_notification`). -/
def validNotificationTypes : List String :=
  ["new_message", "payment_success", "payment_received", "subscription_updated",
   "session_request", "session_accept", "session_reject"]

/-- Model of `db.py create_notification`: validate the required fields and the
type against the closed enumeration, then insert the notification
document. -/
def create_notification (db : Db) (now : Nat) (userId : Nat) (notificationType : String)
    (title : String) (body : String) (relatedId : Option Nat) :
    Except String Notification × Db :=
  if notificationType = "" then (Except.error "notification_type is required", db)
  else if title = "" then (Except.error "title is required", db)
  else if body = "" then (Except.error "body is required", db)
  else if notificationType ∉ validNotificationTypes then
    (Except.error "Invalid notification type", db)
  else
    let notificationData : Notification :=
      { id := db.nextId
        userId := userId
        ntype := notificationType
        title := pyStrip title
        body := pyStrip body
        relatedId := relatedId
        isRead := false
        createdAt := now }
    (Except.ok notificationData,
     { db with notifications := db.notifications ++ [notificationData]
               nextId := db.nextId + 1 })

/-- Observable effects of the notification service, in the order they
happen. -/
inductive Effect where
  | persisted (notificationId : Nat)
  | delivered (notificationId : Nat)
  | deliveryFailed (notificationId : Nat)
deriving DecidableEq

/-- Model of `notifications.py send_notification_websocket`: best-effort push of
an already stored notification through the channel layer to the
`notifications_<user>` group.  The whole body is wrapped in
`try/except` in the source, so a transport failure is logged and
swallowed; `pushOk` abstracts whether the channel-layer send works. -/
def send_notification_websocket (userId : Nat) (n : Notification) (pushOk : Bool) :
    List Effect :=
  if pushOk then [Effect.delivered n.id] else [Effect.deliveryFailed n.id]

/-- Model of `notifications.py send_notification`: persist through
`create_notification` first, then attempt WebSocket delivery, returning
the created document.  A `create_notification` failure propagates to
the caller (`raise`); the delivery step cannot fail the call. -/
def send_notification (db : Db) (now : Nat) (userId : Nat) (notificationType : String)
    (title : String) (body : String) (relatedId : Option Nat) (pushOk : Bool) :
    (Except String Notification × Db) × List Effect :=
  match create_notification db now userId notificationType title body relatedId with
  | (Except.ok n, db1) =>
      let deliveryEffects := send_notification_websocket userId n pushOk
      ((Except.ok n, db1), Effect.persisted n.id :: deliveryEffects)
  | (Except.error e, db1) => ((Except.error e, db1), [])

/-- The `for participant_oid in conversation['participants']` loop of
`create_message`: for every participant other than the sender,
increment the unread counter and fire a best-effort "new message"
notification (an error from the notification call is swallowed, the
store state it reached is kept). -/
def notifyParticipants (db : Db) (now cid senderId : Nat) (senderName preview : String)
    (participants : List Nat) (pushOk : Bool) : Db :=
  participants.foldl
    (fun dbAcc participant =>
      if participant ≠ senderId then
        ((send_notification (increment_unread_count dbAcc cid participant).2 now
            participant "new_message" ("New message from " ++ senderName) preview
            (some cid) pushOk).1).2
      else dbAcc)
    db

/-- Model of `db.py create_message`: validate text/sender, resolve or
auto-create the conversation, validate attachments, insert the message,
update the conversation's last-message fields, then for every other
participant increment the unread counter and fire a best-effort
"new message" notification (whose failure is swallowed). -/
def create_message (db : Db) (now : Nat) (conversationId : Option Nat) (senderId : Nat)
    (recipientId : Option Nat) (text : String) (attachments : Option (List String))
    (pushOk : Bool) : Except String Message × Db :=
  if pyStrip text = "" then (Except.error "message text cannot be empty", db)
  else
    let conversationStep : Except String (Nat × Db) :=
      match conversationId with
      | none =>
        match recipientId with
        | none => Except.error "recipient_id is required when conversation_id is not provided"
        | some recipient =>
          match get_or_create_conversation db now [senderId, recipient] with
          | (Except.ok conversation, db1) => Except.ok (conversation.id, db1)
          | (Except.error e, _) => Except.error e
      | some cid =>
        match findConv db cid with
        | none => Except.error "conversation does not exist"
        | some conversation =>
          if senderId ∉ conversation.participants then
            Except.error "sender must be a participant in the conversation"
          else Except.ok (cid, db)
    match conversationStep with
    | Except.error e => (Except.error e, db)
    | Except.ok (cid, db1) =>
      let attachmentsBad :=
        match attachments with
        | some (u :: us) => (u :: us).any (fun url => pyStrip url = "")
        | _ => false
      if attachmentsBad then
        (Except.error "all attachment URLs must be non-empty strings", db1)
      else
        let messageData : Message :=
          { id := db1.nextId
            conversationId := cid
            senderId := senderId
            text := pyStrip text
            attachments := attachments.getD []
            timestamp := now
            isRead := false
            readAt := none }
        let db2 : Db := { db1 with messages := db1.messages ++ [messageData]
                                   nextId := db1.nextId + 1 }
        let db3 := (update_conversation_last_message db2 cid (pyStrip text) (some now) now).2
        match findConv db3 cid with
        | none => (Except.ok messageData, db3)
        | some conversation =>
          let senderName :=
            match findUser db3 senderId with
            | some u => u.name
            | none => "Someone"
          let messagePreview :=
            if (pyStrip text).data.length > 100 then String.mk ((pyStrip text).data.take 100) ++ "..." else pyStrip text
          let db4 := notifyParticipants db3 now cid senderId senderName messagePreview
            conversation.participants pushOk
          (Except.ok messageData, db4)

/-- Model of `db.py get_messages_by_conversation`: the conversation messages,
newest first, with pagination. -/
def get_messages_by_conversation (db : Db) (cid : Nat) (limit : Nat) (skip : Nat) :
    List Message :=
  ((List.insertionSort tsGe
     (db.messages.filter (fun m => m.conversationId == cid))).drop skip).take limit

/-- Model of `db.py get_messages_after_timestamp`: the conversation messages
with timestamp strictly greater than `afterTimestamp`, oldest first,
capped at `limit`.  (Timestamps are modelled as naturals, corresponding
to the datetime branch of the source; the string-parsing branch only
coerces its input to a datetime.) -/
def get_messages_after_timestamp (db : Db) (cid : Nat) (afterTimestamp : Nat)
    (limit : Nat) : List Message :=
  (List.insertionSort tsLe
    (db.messages.filter
      (fun m => m.conversationId == cid && afterTimestamp < m.timestamp))).take limit

/-- Model of `db.py mark_message_as_read`: set `is_read`/`read_at` on one message
selected by id alone. -/
def mark_message_as_read (db : Db) (now : Nat) (messageId : Nat) : Bool × Db :=
  let newMessages := updateFirstBy Message.id messageId
    (fun m => { m with isRead := true, readAt := some now }) db.messages
  (decide (newMessages ≠ db.messages), { db with messages := newMessages })

/-- Selector of `mark_conversation_messages_as_read`'s `update_many`:
unread messages of the conversation not sent by the user. -/
def unreadFromOther (cid userId : Nat) (m : Message) : Bool :=
  m.conversationId == cid && m.senderId != userId && m.isRead == false

/-- Model of `db.py mark_conversation_messages_as_read`: mark every unread
message of the conversation not sent by the user as read; if at least
one was marked, also reset the user's unread counter.  Returns the
number of marked messages. -/
def mark_conversation_messages_as_read (db : Db) (now : Nat) (cid userId : Nat) :
    Nat × Db :=
  let newMessages := db.messages.map
    (fun m => if unreadFromOther cid userId m then
        { m with isRead := true, readAt := some now } else m)
  let modifiedCount := db.messages.countP (unreadFromOther cid userId)
  let db1 : Db := { db with messages := newMessages }
  if 0 < modifiedCount then (modifiedCount, (reset_unread_count db1 cid userId).2)
  else (modifiedCount, db1)

/-- Model of `db.py update_message`: only the sender may edit; replace the text,
stamp the edit marker, and refresh the conversation's last-message
display when the edited message was the last one. -/
def update_message (db : Db) (now : Nat) (messageId senderId : Nat) (newText : String) :
    Except String (Option Message) × Db :=
  if pyStrip newText = "" then (Except.error "message text cannot be empty", db)
  else
    match findMsg db messageId with
    | none => (Except.ok none, db)
    | some message =>
      if message.senderId ≠ senderId then
        (Except.error "Only the message sender can update the message", db)
      else
        let newMessages := updateFirstBy Message.id messageId
          (fun m => { m with text := pyStrip newText, editedAt := some now,
                             isEdited := true }) db.messages
        if newMessages ≠ db.messages then
          let db1 : Db := { db with messages := newMessages }
          let updatedMessage := findMsg db1 messageId
          let cid := message.conversationId
          let db2 :=
            match findConv db1 cid with
            | some conversation =>
              if conversation.lastMessageTimestamp = some message.timestamp then
                (update_conversation_last_message db1 cid (pyStrip newText)
                  (some message.timestamp) now).2
              else db1
            | none => db1
          (Except.ok updatedMessage, db2)
        else (Except.ok none, db)

/-- Model of `db.py delete_message`: only the sender may delete; soft-delete by
overwriting the text with the fixed tombstone and clearing attachments,
then refresh the conversation's last-message display when the deleted
message was the last one (the refresh re-queries the single newest
message of the conversation, deleted or not). -/
def delete_message (db : Db) (now : Nat) (messageId senderId : Nat) :
    Except String Bool × Db :=
  match findMsg db messageId with
  | none => (Except.ok false, db)
  | some message =>
    if message.senderId ≠ senderId then
      (Except.error "Only the message sender can delete the message", db)
    else
      let newMessages := updateFirstBy Message.id messageId
        (fun m => { m with isDeleted := true, deletedAt := some now,
                           text := "[Message deleted]", attachments := [] }) db.messages
      if newMessages ≠ db.messages then
        let db1 : Db := { db with messages := newMessages }
        let cid := message.conversationId
        let db2 :=
          match findConv db1 cid with
          | some conversation =>
            if conversation.lastMessageTimestamp = some message.timestamp then
              match get_messages_by_conversation db1 cid 1 0 with
              | lastMsg :: _ =>
                if lastMsg.isDeleted = false then
                  (update_conversation_last_message db1 cid lastMsg.text
                    (some lastMsg.timestamp) now).2
                else (update_conversation_last_message db1 cid "" none now).2
              | [] => (update_conversation_last_message db1 cid "" none now).2
            else db1
          | none => db1
        (Except.ok true, db2)
      else (Except.ok false, db)

/-! ### Connection session (`consumers.py ChatConsumer`) -/

/-- The wire form of a message produced by `format_message_response`
and carried inside group events (`event['message']`). -/
structure MsgData where
  id : Nat
  conversationId : Nat
  senderId : Nat
  text : String
  timestamp : Option Nat
deriving DecidableEq

/-- An outbound WebSocket frame (`self.send(...)`) or group fan-out, by
its `type` discriminator. -/
inductive Frame where
  | missedMessage (conversationId : Nat) (m : Message)
  | message (m : MsgData)
  | messageEdited (m : MsgData)
  | messageDeleted (m : MsgData)
  | typing (userId : Nat) (isTyping : Bool)
  | readReceiptF (userId conversationId messageCount : Nat)
  | readReceiptSent (messageCount : Nat)
  | presence (userId : Nat) (status : String)
  | notificationF (n : Notification)
  | errorF (code : String)
  | pong
deriving DecidableEq

/-- The per-connection session state (`ChatConsumer.__init__`): the
authenticated Mongo user id, joined group names, the dedup set of
already delivered message ids, and the per-conversation last-seen
timestamps (whose dict values may be `None`). -/
structure SessState where
  mongoUserId : Nat
  conversationGroups : List String
  sentMessageIds : List Nat
  lastSeenTimestamps : List (Nat × Option Nat)
deriving DecidableEq

/-- The missed-message emission loop inside
`reconnect_to_conversations`: send each fetched message whose id is not
in `sent_message_ids`, adding emitted ids to the set as it goes.
Returns the emitted messages in order and the grown dedup set. -/
def emitMissed (sent : List Nat) : List Message → List Message × List Nat
  | [] => ([], sent)
  | m :: ms =>
    if m.id ∈ sent then emitMissed sent ms
    else
      let rest := emitMissed (sent ++ [m.id]) ms
      (m :: rest.1, rest.2)

/-- One iteration of the conversation loop in
`reconnect_to_conversations`: join the conversation group if new,
resolve the last-seen timestamp (session dict value, else the
conversation's `last_message_timestamp`, else the user's own
`last_seen`), replay the missed messages through the dedup set, and
record the conversation's `last_message_timestamp` as the new
session-dict value. -/
def replayOne (db : Db) (s : SessState) (conversation : Conversation) :
    List Frame × SessState :=
  let groupName := "chat_" ++ toString conversation.id
  let s1 :=
    if groupName ∈ s.conversationGroups then s
    else { s with conversationGroups := s.conversationGroups ++ [groupName] }
  let lastSeen : Option Nat :=
    match getLS s1.lastSeenTimestamps conversation.id with
    | some (some t) => some t
    | _ =>
      match conversation.lastMessageTimestamp with
      | some t => some t
      | none => (findUser db s1.mongoUserId).bind UserRec.lastSeen
  let newLS := setLS s1.lastSeenTimestamps conversation.id conversation.lastMessageTimestamp
  match lastSeen with
  | none => ([], { s1 with lastSeenTimestamps := newLS })
  | some t =>
    let missedMessages := get_messages_after_timestamp db conversation.id t 50
    let emitted := emitMissed s1.sentMessageIds missedMessages
    (emitted.1.map (fun m => Frame.missedMessage conversation.id m),
     { s1 with sentMessageIds := emitted.2, lastSeenTimestamps := newLS })

/-- The `for conversation in conversations` loop of
`reconnect_to_conversations`. -/
def replayAll (db : Db) (s : SessState) : List Conversation → List Frame × SessState
  | [] => ([], s)
  | c :: cs =>
    let r1 := replayOne db s c
    let r2 := replayAll db r1.2 cs
    (r1.1 ++ r2.1, r2.2)

/-- Model of `consumers.py reconnect_to_conversations`: fetch the user's
conversations and replay each one's missed messages. -/
def reconnect_to_conversations (db : Db) (s : SessState) : List Frame × SessState :=
  replayAll db s (get_user_conversations db s.mongoUserId)

/-- Model of `consumers.py mark_messages_read`: with a non-empty explicit id
list, `mark_message_as_read` each id (counting successes); otherwise
defer to `mark_conversation_messages_as_read`. -/
def mark_messages_read (db : Db) (now : Nat) (cid userId : Nat)
    (messageIds : Option (List Nat)) : Nat × Db :=
  match messageIds with
  | some (i :: is) =>
    (i :: is).foldl
      (fun acc mid =>
        let r := mark_message_as_read acc.2 now mid
        (if r.1 then acc.1 + 1 else acc.1, r.2))
      ((0 : Nat), db)
  | _ => mark_conversation_messages_as_read db now cid userId

/-- Model of `consumers.py handle_read_receipt`: resolve the conversation id
(event field, else the connection-bound one) with no membership check,
mark the messages read, broadcast the read count to the conversation
group and confirm to the caller. -/
def handle_read_receipt (db : Db) (now : Nat) (s : SessState)
    (connConversationId : Option Nat) (dataConversationId : Option Nat)
    (messageIds : List Nat) : List Frame × Db :=
  match (match dataConversationId with
         | some cid => some cid
         | none => connConversationId) with
  | none => ([Frame.errorF "VALIDATION_ERROR"], db)
  | some cid =>
    let result := mark_messages_read db now cid s.mongoUserId
      (match messageIds with
       | [] => none
       | i :: is => some (i :: is))
    ([Frame.readReceiptF s.mongoUserId cid result.1, Frame.readReceiptSent result.1],
     result.2)

/-- Group handler `consumers.py chat_message`: forward a `message`
event to the transport unless its id is already in the dedup set (then
skip without touching the set); on forward, record the id and advance
the conversation's last-seen timestamp. -/
def chat_message (s : SessState) (msg : MsgData) : List Frame × SessState :=
  if msg.id ∈ s.sentMessageIds then ([], s)
  else
    let s1 := { s with sentMessageIds := s.sentMessageIds ++ [msg.id] }
    let s2 :=
      match msg.timestamp with
      | some t =>
        { s1 with lastSeenTimestamps := setLS s1.lastSeenTimestamps msg.conversationId (some t) }
      | none => s1
    ([Frame.message msg], s2)

/-- Group handler `consumers.py typing_indicator`: forward unless the
typing user is this session's own user. -/
def typing_indicator (s : SessState) (userId : Nat) (isTyping : Bool) :
    List Frame × SessState :=
  if userId ≠ s.mongoUserId then ([Frame.typing userId isTyping], s) else ([], s)

/-- Group handler `consumers.py read_receipt`: forward unless the
reading user is this session's own user. -/
def read_receipt (s : SessState) (userId conversationId messageCount : Nat) :
    List Frame × SessState :=
  if userId ≠ s.mongoUserId then
    ([Frame.readReceiptF userId conversationId messageCount], s)
  else ([], s)

/-- Group handler `consumers.py presence_update`: forward unless the
presence is this session's own user's. -/
def presence_update (s : SessState) (userId : Nat) (status : String) :
    List Frame × SessState :=
  if userId ≠ s.mongoUserId then ([Frame.presence userId status], s) else ([], s)

/-- Group handler `consumers.py notification_received`: forward
unconditionally. -/
def notification_received (s : SessState) (n : Notification) : List Frame × SessState :=
  ([Frame.notificationF n], s)

/-- Group handler `consumers.py message_edited`: forward
unconditionally (no dedup-set check appears in the source). -/
def message_edited (s : SessState) (msg : MsgData) : List Frame × SessState :=
  ([Frame.messageEdited msg], s)

/-- Group handler `consumers.py message_deleted`: forward
unconditionally (no dedup-set check appears in the source). -/
def message_deleted (s : SessState) (msg : MsgData) : List Frame × SessState :=
  ([Frame.messageDeleted msg], s)

/-- The event types the `ChatConsumer.receive` dispatcher routes. -/
def knownEventTypes : List String :=
  ["authenticate", "send_message", "typing", "read_receipt", "reconnect",
   "get_missed_messages", "notifications_sync", "edit_message", "delete_message",
   "ping"]

/-- Model of the `ChatConsumer.receive` dispatch on the event `type`: the frames
emitted immediately by the dispatcher itself, and the name of the
handler the event is routed to (if any).  `authenticate` is handled
before the authentication gate; every other type answers
`AUTH_REQUIRED` when the session is not authenticated; an
unrecognised type answers `UNKNOWN_EVENT`. -/
def receive (authenticated : Bool) (hasToken : Bool) (eventType : String) :
    List Frame × Option String :=
  if eventType = "authenticate" then
    if hasToken = false then ([Frame.errorF "VALIDATION_ERROR"], none)
    else ([], some "authenticate_user")
  else if authenticated = false then ([Frame.errorF "AUTH_REQUIRED"], none)
  else if eventType = "send_message" then ([], some "handle_send_message")
  else if eventType = "typing" then ([], some "handle_typing")
  else if eventType = "read_receipt" then ([], some "handle_read_receipt")
  else if eventType = "reconnect" then ([], some "handle_reconnect")
  else if eventType = "get_missed_messages" then ([], some "handle_get_missed_messages")
  else if eventType = "notifications_sync" then ([], some "handle_notifications_sync")
  else if eventType = "edit_message" then ([], some "handle_edit_message")
  else if eventType = "delete_message" then ([], some "handle_delete_message")
  else if eventType = "ping" then ([Frame.pong], none)
  else ([Frame.errorF "UNKNOWN_EVENT"], none)

/-! ## Claims -/

/-- C9: for every inbound event whose type is not `authenticate`, an
unauthenticated session gets exactly one `AUTH_REQUIRED` error frame
and no handler runs (no other effect); an authenticated session with an
event type outside the defined list gets exactly one `UNKNOWN_EVENT`
error frame and no handler runs. -/
theorem c9_dispatch_auth_gate (eventType : String) (hasToken : Bool) :
    (eventType ≠ "authenticate" →
      receive false hasToken eventType = ([Frame.errorF "AUTH_REQUIRED"], none)) ∧
    (eventType ∉ knownEventTypes →
      receive true hasToken eventType = ([Frame.errorF "UNKNOWN_EVENT"], none)) := by
  constructor
  · intro h
    simp [receive, h]
  · intro h
    simp only [knownEventTypes, List.mem_cons, List.not_mem_nil, or_false] at h
    push_neg at h
    obtain ⟨h1, h2, h3, h4, h5, h6, h7, h8, h9, h10⟩ := h
    simp [receive, h1, h2, h3, h4, h5, h6, h7, h8, h9, h10]

/-- C9 witness: the gate at the concrete unknown event type
`"frobnicate"`. -/
theorem c9_dispatch_auth_gate_witness :
    receive false true "frobnicate" = ([Frame.errorF "AUTH_REQUIRED"], none) ∧
    receive true true "frobnicate" = ([Frame.errorF "UNKNOWN_EVENT"], none) :=
  ⟨(c9_dispatch_auth_gate "frobnicate" true).1 (by decide),
   (c9_dispatch_auth_gate "frobnicate" true).2 (by decide)⟩

/-- C3: for an existing message and a caller other than its sender
(and edit text that passes the emptiness validation preceding the
ownership check), `update_message` and `delete_message` both fail with
the sender-only authorization error and return the store unchanged, so
no field of the message is modified. -/
theorem c3_sender_only_mutation (db : Db) (now messageId caller : Nat) (text : String)
    (m : Message) (hm : findMsg db messageId = some m) (hc : caller ≠ m.senderId)
    (ht : pyStrip text ≠ "") :
    update_message db now messageId caller text =
      (Except.error "Only the message sender can update the message", db) ∧
    delete_message db now messageId caller =
      (Except.error "Only the message sender can delete the message", db) := by
  have hs : m.senderId ≠ caller := Ne.symm hc
  constructor
  · simp [update_message, ht, hm, hs]
  · simp [delete_message, hm, hs]

/-- A one-message store used by concrete instantiations: user 10's
message in conversation 1. -/
def c3msg : Message :=
  { id := 1, conversationId := 1, senderId := 10, text := "hi",
    attachments := [], timestamp := 1, isRead := false, readAt := none }

/-- The store holding only `c3msg`. -/
def c3db : Db :=
  { users := [], conversations := [], messages := [c3msg],
    notifications := [], nextId := 2 }

/-- C3 witness: in the concrete one-message store, user 20's attempt
to edit user 10's message fails with the authorization error and the
store is unchanged. -/
theorem c3_sender_only_mutation_witness :
    update_message c3db 7 1 20 "edited" =
      (Except.error "Only the message sender can update the message", c3db) :=
  (c3_sender_only_mutation c3db 7 1 20 "edited" c3msg (by decide) (by decide)
    (by decide)).1

/-- The sorted canonical pair is symmetric in its two (distinct)
elements. -/
theorem insertionSort_pair_comm (A B : Nat) (h : A ≠ B) :
    List.insertionSort (fun a b : Nat => a ≤ b) [A, B] =
      List.insertionSort (fun a b : Nat => a ≤ b) [B, A] := by
  by_cases hab : A ≤ B
  · have hba : ¬ B ≤ A := fun hba => h (Nat.le_antisymm hab hba)
    simp [List.insertionSort, List.orderedInsert, hab, hba]
  · have hba : B ≤ A := Nat.le_of_not_le hab
    simp [List.insertionSort, List.orderedInsert, hab, hba]

/-- The freshly inserted conversation record for a sorted pair. -/
def newConversationFor (db : Db) (now : Nat) (sortedOids : List Nat) : Conversation :=
  { id := db.nextId
    participants := sortedOids
    lastMessage := ""
    lastMessageTimestamp := none
    unreadCounts := [(sortedOids.headD 0, 0), (sortedOids.getD 1 0, 0)]
    createdAt := now
    updatedAt := now }

/-- Evaluation of `get_or_create_conversation` on a distinct pair: the
validations pass and the call reduces to find-or-insert on the sorted
pair. -/
theorem gocc_eval (db : Db) (now A B : Nat) (h : A ≠ B) :
    get_or_create_conversation db now [A, B] =
      (match db.conversations.find?
          (fun c => c.participants == List.insertionSort (fun a b : Nat => a ≤ b) [A, B]) with
       | some existing => (Except.ok existing, db)
       | none =>
         (Except.ok (newConversationFor db now
            (List.insertionSort (fun a b : Nat => a ≤ b) [A, B])),
          { db with
            conversations := db.conversations ++ [newConversationFor db now (List.insertionSort (fun a b : Nat => a ≤ b) [A, B])],
            nextId := db.nextId + 1 })) := by
  simp [get_or_create_conversation, newConversationFor, Ne.symm h]

/-- Behavior of `find_one` on an appended collection when the first part has no
match. -/
theorem find?_append_of_none {α : Type} {p : α → Bool} {l1 : List α}
    (h : l1.find? p = none) (l2 : List α) : (l1 ++ l2).find? p = l2.find? p := by
  induction l1 with
  | nil => simp
  | cons x xs ih =>
    cases hpx : p x with
    | true => rw [List.find?_cons_of_pos _ hpx] at h; cases h
    | false =>
      rw [List.find?_cons_of_neg _ (by simp [hpx])] at h
      rw [List.cons_append, List.find?_cons_of_neg _ (by simp [hpx])]
      exact ih h

/-- C2: `get_or_create_conversation` designates the same conversation
record for `[A, B]` and `[B, A]` (same result and same resulting
store), and after a successful call the other ordering finds the very
same record without creating another one — at most one conversation per
unordered pair. -/
theorem c2_conversation_pair_canonical (db : Db) (now A B : Nat) (h : A ≠ B) :
    get_or_create_conversation db now [A, B] = get_or_create_conversation db now [B, A] ∧
    (∀ c db1, get_or_create_conversation db now [A, B] = (Except.ok c, db1) →
      get_or_create_conversation db1 now [B, A] = (Except.ok c, db1)) := by
  have hsort := insertionSort_pair_comm A B h
  constructor
  · rw [gocc_eval db now A B h, gocc_eval db now B A (Ne.symm h), hsort]
  · intro c db1 hcall
    rw [gocc_eval db now A B h] at hcall
    rw [gocc_eval db1 now B A (Ne.symm h), ← hsort]
    rcases hfind : db.conversations.find?
        (fun cv => cv.participants == List.insertionSort (fun a b : Nat => a ≤ b) [A, B])
      with _ | cv
    · rw [hfind] at hcall
      simp only [Prod.mk.injEq, Except.ok.injEq] at hcall
      obtain ⟨hc, hdb⟩ := hcall
      subst hc
      subst hdb
      have hnew : (db.conversations ++
          [newConversationFor db now (List.insertionSort (fun a b : Nat => a ≤ b) [A, B])]).find?
            (fun cv => cv.participants == List.insertionSort (fun a b : Nat => a ≤ b) [A, B]) =
          some (newConversationFor db now (List.insertionSort (fun a b : Nat => a ≤ b) [A, B])) := by
        rw [find?_append_of_none hfind]
        simp [newConversationFor]
      simp only [hnew]
    · rw [hfind] at hcall
      simp only [Prod.mk.injEq, Except.ok.injEq] at hcall
      obtain ⟨hc, hdb⟩ := hcall
      subst hc
      subst hdb
      simp only [hfind]

/-- C2 witness: with an empty store, `[10, 20]` and `[20, 10]` create
and return the same conversation record. -/
theorem c2_conversation_pair_canonical_witness :
    get_or_create_conversation
        { users := [], conversations := [], messages := [], notifications := [], nextId := 1 }
        5 [10, 20] =
      get_or_create_conversation
        { users := [], conversations := [], messages := [], notifications := [], nextId := 1 }
        5 [20, 10] :=
  (c2_conversation_pair_canonical
    { users := [], conversations := [], messages := [], notifications := [], nextId := 1 }
    5 10 20 (by decide)).1

/-- A successful `create_notification` appends exactly the returned
document to the notifications collection. -/
theorem create_notification_ok (db : Db) (now userId : Nat)
    (notificationType title body : String) (relatedId : Option Nat)
    (n : Notification) (db1 : Db)
    (hc : create_notification db now userId notificationType title body relatedId =
      (Except.ok n, db1)) :
    db1.notifications = db.notifications ++ [n] := by
  simp only [create_notification] at hc
  split_ifs at hc <;>
    first
    | exact Except.noConfusion (congrArg Prod.fst hc)
    | (simp only [Prod.mk.injEq, Except.ok.injEq] at hc
       obtain ⟨h1, h2⟩ := hc
       rw [← h2, ← h1])

/-- C4: whenever persistence (`create_notification`) succeeds,
`send_notification` returns the created notification document and the
post-persistence store regardless of whether WebSocket delivery works;
the document is in the store, and the effect trace shows persistence
strictly before the delivery attempt. -/
theorem c4_persist_before_delivery (db : Db) (now userId : Nat)
    (notificationType title body : String) (relatedId : Option Nat)
    (n : Notification) (db1 : Db)
    (hc : create_notification db now userId notificationType title body relatedId =
      (Except.ok n, db1)) (pushOk : Bool) :
    (send_notification db now userId notificationType title body relatedId pushOk).1 =
      (Except.ok n, db1) ∧
    n ∈ db1.notifications ∧
    (send_notification db now userId notificationType title body relatedId pushOk).2 =
      Effect.persisted n.id ::
        (if pushOk then [Effect.delivered n.id] else [Effect.deliveryFailed n.id]) := by
  refine ⟨?_, ?_, ?_⟩
  · simp [send_notification, hc]
  · rw [create_notification_ok db now userId notificationType title body relatedId n db1 hc]
    simp
  · simp [send_notification, hc, send_notification_websocket]

/-- The notification document created by the C4 witness store. -/
def c4n : Notification :=
  { id := 3, userId := 7, ntype := "new_message", title := "t", body := "b",
    relatedId := none, isRead := false, createdAt := 9 }

/-- An empty store with the allocator at 3. -/
def c4db : Db :=
  { users := [], conversations := [], messages := [], notifications := [], nextId := 3 }

/-- The C4 witness store after persistence. -/
def c4db1 : Db :=
  { users := [], conversations := [], messages := [], notifications := [c4n], nextId := 4 }

/-- C4 witness: on the concrete store, even with the delivery step
failing (`pushOk = false`), the call returns the persisted document,
which is in the store, and the trace persists before the failed
delivery. -/
theorem c4_persist_before_delivery_witness :
    (send_notification c4db 9 7 "new_message" "t" "b" none false).1 =
      (Except.ok c4n, c4db1) ∧
    c4n ∈ c4db1.notifications ∧
    (send_notification c4db 9 7 "new_message" "t" "b" none false).2 =
      [Effect.persisted 3, Effect.deliveryFailed 3] :=
  let h := c4_persist_before_delivery c4db 9 7 "new_message" "t" "b" none c4n c4db1
    (by rfl) false
  ⟨h.1, h.2.1, h.2.2⟩

/-- C10: the explicit-ids path of `handle_read_receipt` performs no
authorization check — for any session (any `mongoUserId`), any supplied
conversation id (participant or not, existent or not), and any existing
message, the message is marked read and `read_at` stamped, with every
other field unchanged. -/
theorem c10_read_receipt_no_authorization (db : Db) (now : Nat) (s : SessState)
    (connConversationId : Option Nat) (cid mid : Nat) (m : Message)
    (hm : findMsg db mid = some m) :
    findMsg (handle_read_receipt db now s connConversationId (some cid) [mid]).2 mid =
      some { m with isRead := true, readAt := some now } := by
  have hkey : ∀ x : Message,
      ({ x with isRead := true, readAt := some now } : Message).id = x.id := fun _ => rfl
  simp only [handle_read_receipt, mark_messages_read, List.foldl, mark_message_as_read,
    findMsg]
  rw [findBy_updateFirstBy Message.id mid _ hkey db.messages]
  simp only [findMsg] at hm
  rw [hm]
  rfl

/-- The message read without authorization in the C10 witness. -/
def c10msg : Message :=
  { id := 1, conversationId := 1, senderId := 10, text := "hi",
    attachments := [], timestamp := 1, isRead := false, readAt := none }

/-- The C10 witness store: one conversation between users 10 and 20
holding `c10msg`. -/
def c10db : Db :=
  { users := [],
    conversations := [{ id := 1, participants := [10, 20], lastMessage := "hi",
                        lastMessageTimestamp := some 1,
                        unreadCounts := [(10, 0), (20, 1)], createdAt := 0,
                        updatedAt := 1 }],
    messages := [c10msg], notifications := [], nextId := 5 }

/-- The C10 witness session: user 99, a participant of nothing. -/
def c10sess : SessState :=
  { mongoUserId := 99, conversationGroups := [], sentMessageIds := [],
    lastSeenTimestamps := [] }

/-- C10 witness: the outsider session 99, naming the nonexistent
conversation 77, still gets message 1 marked read. -/
theorem c10_read_receipt_no_authorization_witness :
    findMsg (handle_read_receipt c10db 5 c10sess none (some 77) [1]).2 1 =
      some { c10msg with isRead := true, readAt := some 5 } :=
  c10_read_receipt_no_authorization c10db 5 c10sess none 77 1 c10msg (by decide)

/-- A successful `delete_message` by the sender rewrites exactly the
targeted message with the tombstone update and leaves the messages
collection otherwise equal (whatever the conversation-display branch
does, it only touches conversations). -/
theorem delete_message_messages (db : Db) (now mid : Nat) (m : Message)
    (hm : findMsg db mid = some m) (hnd : m.isDeleted = false) :
    (delete_message db now mid m.senderId).1 = Except.ok true ∧
    ((delete_message db now mid m.senderId).2).messages =
      updateFirstBy Message.id mid (fun mm => { mm with isDeleted := true, deletedAt := some now, text := "[Message deleted]", attachments := [] }) db.messages := by
  have hne : ({ m with isDeleted := true, deletedAt := some now, text := "[Message deleted]", attachments := [] } : Message) ≠ m := by
    intro he
    have hb : (true : Bool) = false := by
      rw [← hnd]
      exact congrArg Message.isDeleted he
    cases hb
  have hupd := updateFirstBy_ne Message.id mid
    (fun mm => { mm with isDeleted := true, deletedAt := some now, text := "[Message deleted]", attachments := [] }) db.messages m hm hne
  have hsender : ¬ (m.senderId ≠ m.senderId) := fun hs => hs rfl
  simp only [delete_message, hm]
  rw [if_neg hsender, if_pos hupd]
  constructor
  · rfl
  · repeat' split
    all_goals rfl

/-- C7 (amended): a successful sender delete tombstones the message —
text becomes the fixed placeholder, attachments are cleared,
`is_deleted` is set and `deleted_at` is stamped with the deletion time —
while every other field (id, conversation, sender, timestamp, read and
edit state) is unchanged, so ordering and history are preserved. -/
theorem c7_soft_delete_tombstone (db : Db) (now mid : Nat) (m : Message)
    (hm : findMsg db mid = some m) (hnd : m.isDeleted = false) :
    (delete_message db now mid m.senderId).1 = Except.ok true ∧
    findMsg (delete_message db now mid m.senderId).2 mid =
      some { m with text := "[Message deleted]", attachments := [], isDeleted := true,
                    deletedAt := some now } := by
  obtain ⟨h1, h2⟩ := delete_message_messages db now mid m hm hnd
  refine ⟨h1, ?_⟩
  simp only [findMsg, h2]
  rw [findBy_updateFirstBy Message.id mid (fun mm => { mm with isDeleted := true, deletedAt := some now, text := "[Message deleted]", attachments := [] }) (fun _ => rfl) db.messages]
  simp only [findMsg] at hm
  rw [hm]
  rfl

/-- The message deleted in the C7 concrete store. -/
def c7msg : Message :=
  { id := 1, conversationId := 1, senderId := 10, text := "hi",
    attachments := [], timestamp := 1, isRead := false, readAt := none }

/-- The C7 concrete store. -/
def c7db : Db :=
  { users := [],
    conversations := [{ id := 1, participants := [10, 20], lastMessage := "hi",
                        lastMessageTimestamp := some 1,
                        unreadCounts := [(10, 0), (20, 0)], createdAt := 0,
                        updatedAt := 1 }],
    messages := [c7msg], notifications := [], nextId := 5 }

/-- C7 counterexample: deletion changes a field other than text,
attachments and the deleted flag — `deleted_at` goes from `none` to the
deletion time — so "every other field of the record is unchanged" fails
as stated. -/
theorem c7_counterexample_deleted_at_changes :
    c7msg.deletedAt = none ∧
    findMsg c7db 1 = some c7msg ∧
    ((findMsg (delete_message c7db 9 1 10).2 1).map Message.deletedAt) =
      some (some 9) := by decide

/-- C7 witness: the tombstone frame theorem applied to the concrete
store. -/
theorem c7_soft_delete_tombstone_witness :
    findMsg (delete_message c7db 9 1 10).2 1 =
      some { c7msg with text := "[Message deleted]", attachments := [],
                        isDeleted := true, deletedAt := some 9 } :=
  (c7_soft_delete_tombstone c7db 9 1 c7msg (by decide) (by decide)).2

/-- The older, never-deleted message in the C5 store. -/
def c5m1 : Message :=
  { id := 1, conversationId := 1, senderId := 10, text := "first",
    attachments := [], timestamp := 1, isRead := true, readAt := some 1 }

/-- The newer message in the C5 store, the conversation's current last
message. -/
def c5m2 : Message :=
  { id := 2, conversationId := 1, senderId := 10, text := "second",
    attachments := [], timestamp := 2, isRead := false, readAt := none }

/-- The C5 store: conversation 1 with last message `c5m2`. -/
def c5db : Db :=
  { users := [],
    conversations := [{ id := 1, participants := [10, 20], lastMessage := "second",
                        lastMessageTimestamp := some 2,
                        unreadCounts := [(10, 0), (20, 1)], createdAt := 0,
                        updatedAt := 2 }],
    messages := [c5m1, c5m2], notifications := [], nextId := 3 }

/-- C5: evaluating the code at the failing input.  Deleting the last
message `c5m2` while the older non-deleted `c5m1` remains clears the
conversation display to `("", none)` instead of recomputing it from
`c5m1` — the recompute query fetches the single newest message without
excluding the just-tombstoned one. -/
theorem c5_delete_last_clears_despite_remaining :
    (delete_message c5db 9 2 10).1 = Except.ok true ∧
    (∃ m ∈ ((delete_message c5db 9 2 10).2).messages,
       m.id = 1 ∧ m.isDeleted = false ∧ m.text = "first" ∧ m.timestamp = 1) ∧
    (findConv (delete_message c5db 9 2 10).2 1).map
        (fun c => (c.lastMessage, c.lastMessageTimestamp)) = some ("", none) :=
  ⟨rfl, by decide, by decide⟩

/-- The C8 session, with message id 5 already delivered. -/
def c8sess : SessState :=
  { mongoUserId := 7, conversationGroups := [], sentMessageIds := [5],
    lastSeenTimestamps := [] }

/-- The C8 event payload carrying the already-delivered id 5. -/
def c8msg : MsgData :=
  { id := 5, conversationId := 1, senderId := 9, text := "x", timestamp := some 3 }

/-- C8 counterexample: an edit (and likewise a delete) group event
whose message id is already in the dedup set is still forwarded — the
handlers have no dedup check — so "a message, edit, or delete event …
unless the id is already in the dedup set" fails as stated. -/
theorem c8_counterexample_edit_not_deduplicated :
    c8msg.id ∈ c8sess.sentMessageIds ∧
    (message_edited c8sess c8msg).1 = [Frame.messageEdited c8msg] ∧
    (message_deleted c8sess c8msg).1 = [Frame.messageDeleted c8msg] := by decide

/-- C8 (amended): `message` group events are deduplicated by id — a
known id is skipped with the session state (dedup set included) left
exactly as it was, a new id is forwarded and recorded; edit and delete
events are forwarded unconditionally; typing, read-receipt and presence
events are forwarded exactly when the originating user is not the
session's own user; notification events are forwarded unconditionally. -/
theorem c8_group_event_forwarding :
    (∀ s m, m.id ∈ s.sentMessageIds → chat_message s m = ([], s)) ∧
    (∀ s m, m.id ∉ s.sentMessageIds →
       (chat_message s m).1 = [Frame.message m] ∧
       (chat_message s m).2.sentMessageIds = s.sentMessageIds ++ [m.id]) ∧
    (∀ s m, message_edited s m = ([Frame.messageEdited m], s)) ∧
    (∀ s m, message_deleted s m = ([Frame.messageDeleted m], s)) ∧
    (∀ s u b, u ≠ s.mongoUserId → typing_indicator s u b = ([Frame.typing u b], s)) ∧
    (∀ s u b, u = s.mongoUserId → typing_indicator s u b = ([], s)) ∧
    (∀ s u c k, u ≠ s.mongoUserId →
       read_receipt s u c k = ([Frame.readReceiptF u c k], s)) ∧
    (∀ s u c k, u = s.mongoUserId → read_receipt s u c k = ([], s)) ∧
    (∀ s u st, u ≠ s.mongoUserId → presence_update s u st = ([Frame.presence u st], s)) ∧
    (∀ s u st, u = s.mongoUserId → presence_update s u st = ([], s)) ∧
    (∀ s n, notification_received s n = ([Frame.notificationF n], s)) := by
  refine ⟨?_, ?_, ?_, ?_, ?_, ?_, ?_, ?_, ?_, ?_, ?_⟩
  · intro s m hm
    simp [chat_message, hm]
  · intro s m hm
    constructor
    · rcases ht : m.timestamp with _ | t <;> simp [chat_message, hm, ht]
    · rcases ht : m.timestamp with _ | t <;> simp [chat_message, hm, ht]
  · intro s m; rfl
  · intro s m; rfl
  · intro s u b hu; simp [typing_indicator, hu]
  · intro s u b hu; simp [typing_indicator, hu]
  · intro s u c k hu; simp [read_receipt, hu]
  · intro s u c k hu; simp [read_receipt, hu]
  · intro s u st hu; simp [presence_update, hu]
  · intro s u st hu; simp [presence_update, hu]
  · intro s n; rfl

/-- C8 witness: the dedup-skip branch at the concrete session — the
already-delivered id 5 yields no frame and the state is untouched. -/
theorem c8_group_event_forwarding_witness :
    chat_message c8sess c8msg = ([], c8sess) :=
  c8_group_event_forwarding.1 c8sess c8msg (by decide)

/-- Lemma: `create_notification` never touches the conversations collection. -/
theorem create_notification_conversations (db : Db) (now userId : Nat)
    (notificationType title body : String) (relatedId : Option Nat) :
    ((create_notification db now userId notificationType title body relatedId).2).conversations =
      db.conversations := by
  simp only [create_notification]
  split_ifs <;> rfl

/-- Lemma: `send_notification` never touches the conversations collection. -/
theorem send_notification_conversations (db : Db) (now userId : Nat)
    (notificationType title body : String) (relatedId : Option Nat) (pushOk : Bool) :
    ((((send_notification db now userId notificationType title body relatedId pushOk).1).2)).conversations =
      db.conversations := by
  have h := create_notification_conversations db now userId notificationType title body relatedId
  rcases hc : create_notification db now userId notificationType title body relatedId with ⟨er, db1⟩
  rw [hc] at h
  cases er <;> simp only [send_notification, hc] <;> exact h

/-- Lemma: `update_conversation_last_message` rewrites exactly the targeted
conversation document. -/
theorem findConv_uclm (db : Db) (cid : Nat) (t : String) (ts : Option Nat) (now : Nat) :
    findConv (update_conversation_last_message db cid t ts now).2 cid =
      (findConv db cid).map (fun cc => { cc with lastMessage := t, lastMessageTimestamp := ts, updatedAt := now }) := by
  simp only [update_conversation_last_message, findConv]
  rw [findBy_updateFirstBy Conversation.id cid (fun cc => { cc with lastMessage := t, lastMessageTimestamp := ts, updatedAt := now }) (fun _ => rfl) db.conversations]

/-- The notification loop on the participant pair `[a, b]` with sender
`a`: only `b`'s unread counter is incremented (the notification calls
never touch conversations). -/
theorem notifyParticipants_pair (db : Db) (now cid a b : Nat) (sn pv : String)
    (pushOk : Bool) (hba : b ≠ a) :
    (notifyParticipants db now cid a sn pv [a, b] pushOk).conversations =
      updateFirstBy Conversation.id cid (fun cc => { cc with unreadCounts := setCount cc.unreadCounts b (getCount cc.unreadCounts b + 1) }) db.conversations := by
  simp only [notifyParticipants, List.foldl]
  rw [if_pos hba, if_neg (fun hs : a ≠ a => hs rfl)]
  rw [send_notification_conversations]
  rfl

/-- The notification loop on the participant pair `[a, b]` with sender
`b` (the second-listed participant): only `a`'s unread counter is
incremented. -/
theorem notifyParticipants_pair_snd (db : Db) (now cid a b : Nat) (sn pv : String)
    (pushOk : Bool) (hab : a ≠ b) :
    (notifyParticipants db now cid b sn pv [a, b] pushOk).conversations =
      updateFirstBy Conversation.id cid (fun cc => { cc with unreadCounts := setCount cc.unreadCounts a (getCount cc.unreadCounts a + 1) }) db.conversations := by
  simp only [notifyParticipants, List.foldl]
  rw [if_neg (fun hs : b ≠ b => hs rfl), if_pos hab]
  rw [send_notification_conversations]
  rfl

/-- C6 part (a): a message sent by either participant of the two-party
conversation `[a, b]` bumps the other participant's unread counter by
exactly one and leaves the sender's unchanged. -/
theorem create_message_increments_other (db : Db) (now cid a b sender other : Nat)
    (text : String) (pushOk : Bool) (c : Conversation)
    (hc : findConv db cid = some c) (hp : c.participants = [a, b]) (hab : a ≠ b)
    (hso : (sender = a ∧ other = b) ∨ (sender = b ∧ other = a))
    (ht : pyStrip text ≠ "") :
    ∃ c', findConv (create_message db now (some cid) sender none text none pushOk).2 cid = some c' ∧
      getCount c'.unreadCounts other = getCount c.unreadCounts other + 1 ∧
      getCount c'.unreadCounts sender = getCount c.unreadCounts sender := by
  have hcB : findBy Conversation.id cid db.conversations = some c := hc
  rcases hso with ⟨rfl, rfl⟩ | ⟨rfl, rfl⟩
  · have hmem : sender ∈ c.participants := by rw [hp]; exact List.mem_cons_self sender [other]
    have hba : other ≠ sender := Ne.symm hab
    simp only [create_message, if_neg ht, hc, if_neg (not_not_intro hmem)]
    rw [if_neg (fun h => Bool.noConfusion h)]
    split
    case _ heq =>
      exfalso
      rw [findConv_uclm] at heq
      simp only [findConv] at heq
      rw [hcB] at heq
      simp at heq
    case _ conversation heq =>
      rw [findConv_uclm] at heq
      simp only [findConv] at heq
      rw [hcB] at heq
      simp only [Option.map_some'] at heq
      injection heq with heq2
      subst heq2
      simp only [findConv, update_conversation_last_message, hp]
      rw [notifyParticipants_pair _ now cid sender other _ _ _ hba]
      rw [findBy_updateFirstBy Conversation.id cid (fun cc => { cc with unreadCounts := setCount cc.unreadCounts other (getCount cc.unreadCounts other + 1) }) (fun _ => rfl)]
      rw [findBy_updateFirstBy Conversation.id cid (fun cc => { cc with lastMessage := pyStrip text, lastMessageTimestamp := some now, updatedAt := now }) (fun _ => rfl)]
      rw [hcB]
      refine ⟨_, rfl, ?_, ?_⟩
      · exact getCount_setCount_self c.unreadCounts other _
      · exact getCount_setCount_other c.unreadCounts other _ sender hab
  · have hmem : sender ∈ c.participants := by
      rw [hp]
      exact List.mem_cons_of_mem other (List.mem_cons_self sender [])
    have hba : sender ≠ other := Ne.symm hab
    simp only [create_message, if_neg ht, hc, if_neg (not_not_intro hmem)]
    rw [if_neg (fun h => Bool.noConfusion h)]
    split
    case _ heq =>
      exfalso
      rw [findConv_uclm] at heq
      simp only [findConv] at heq
      rw [hcB] at heq
      simp at heq
    case _ conversation heq =>
      rw [findConv_uclm] at heq
      simp only [findConv] at heq
      rw [hcB] at heq
      simp only [Option.map_some'] at heq
      injection heq with heq2
      subst heq2
      simp only [findConv, update_conversation_last_message, hp]
      rw [notifyParticipants_pair_snd _ now cid other sender _ _ _ hab]
      rw [findBy_updateFirstBy Conversation.id cid (fun cc => { cc with unreadCounts := setCount cc.unreadCounts other (getCount cc.unreadCounts other + 1) }) (fun _ => rfl)]
      rw [findBy_updateFirstBy Conversation.id cid (fun cc => { cc with lastMessage := pyStrip text, lastMessageTimestamp := some now, updatedAt := now }) (fun _ => rfl)]
      rw [hcB]
      refine ⟨_, rfl, ?_, ?_⟩
      · exact getCount_setCount_self c.unreadCounts other _
      · exact getCount_setCount_other c.unreadCounts other _ sender hba

/-- C6 part (b): the no-explicit-ids read path resets the reader's
unread counter to exactly zero as soon as at least one unread message
from the other participant exists. -/
theorem mark_all_read_resets_counter (db : Db) (now cid uid : Nat) (c : Conversation)
    (hc : findConv db cid = some c)
    (hex : 0 < db.messages.countP (unreadFromOther cid uid)) :
    ∃ c', findConv (mark_conversation_messages_as_read db now cid uid).2 cid = some c' ∧
      getCount c'.unreadCounts uid = 0 := by
  have hcB : findBy Conversation.id cid db.conversations = some c := hc
  simp only [mark_conversation_messages_as_read]
  rw [if_pos hex]
  simp only [reset_unread_count, findConv]
  rw [findBy_updateFirstBy Conversation.id cid (fun cc => { cc with unreadCounts := setCount cc.unreadCounts uid 0 }) (fun _ => rfl)]
  rw [hcB]
  exact ⟨_, rfl, getCount_setCount_self c.unreadCounts uid 0⟩

/-- The explicit-ids marking loop never touches the conversations
collection. -/
theorem markEach_conversations (now : Nat) : ∀ (ids : List Nat) (acc : Nat × Db),
    ((ids.foldl
      (fun acc mid =>
        let r := mark_message_as_read acc.2 now mid
        (if r.1 then acc.1 + 1 else acc.1, r.2))
      acc).2).conversations = acc.2.conversations := by
  intro ids
  induction ids with
  | nil => intro acc; rfl
  | cons x xs ih =>
    intro acc
    simp only [List.foldl]
    rw [ih]
    rfl

/-- C6 part (c): the explicit-ids read path leaves every conversation —
in particular every unread counter — unchanged. -/
theorem mark_messages_read_explicit_keeps_counters (db : Db) (now cid uid i : Nat)
    (is : List Nat) :
    ((mark_messages_read db now cid uid (some (i :: is))).2).conversations =
      db.conversations := by
  simp only [mark_messages_read]
  exact markEach_conversations now (i :: is) (0, db)

/-- C6 (amended): a participant's unread counter increases by exactly
one per message from the other participant; a `read_receipt` without
explicit ids resets the counter to exactly zero whenever at least one
unread message from the other participant exists; the explicit-ids path
(`read_receipt{message_ids:[...]}`) marks the listed messages read but
leaves every unread counter unchanged. -/
theorem c6_unread_counter_lifecycle :
    (∀ (db : Db) (now cid a b sender other : Nat) (text : String) (pushOk : Bool)
       (c : Conversation),
      findConv db cid = some c → c.participants = [a, b] → a ≠ b →
      ((sender = a ∧ other = b) ∨ (sender = b ∧ other = a)) → pyStrip text ≠ "" →
      ∃ c', findConv (create_message db now (some cid) sender none text none pushOk).2 cid = some c' ∧
        getCount c'.unreadCounts other = getCount c.unreadCounts other + 1 ∧
        getCount c'.unreadCounts sender = getCount c.unreadCounts sender) ∧
    (∀ (db : Db) (now cid uid : Nat) (c : Conversation),
      findConv db cid = some c →
      0 < db.messages.countP (unreadFromOther cid uid) →
      ∃ c', findConv (mark_conversation_messages_as_read db now cid uid).2 cid = some c' ∧
        getCount c'.unreadCounts uid = 0) ∧
    (∀ (db : Db) (now cid uid i : Nat) (is : List Nat),
      ((mark_messages_read db now cid uid (some (i :: is))).2).conversations =
        db.conversations) :=
  ⟨fun db now cid a b sender other text pushOk c hc hp hab hso ht =>
      create_message_increments_other db now cid a b sender other text pushOk c hc hp hab
        hso ht,
   fun db now cid uid c hc hex => mark_all_read_resets_counter db now cid uid c hc hex,
   fun db now cid uid i is => mark_messages_read_explicit_keeps_counters db now cid uid i is⟩

/-- The conversation of the C6 concrete store. -/
def c6conv : Conversation :=
  { id := 1, participants := [10, 20], lastMessage := "", lastMessageTimestamp := none,
    unreadCounts := [(10, 0), (20, 0)], createdAt := 0, updatedAt := 0 }

/-- The C6 concrete store: empty conversation between 10 and 20. -/
def c6db : Db :=
  { users := [], conversations := [c6conv], messages := [], notifications := [],
    nextId := 2 }

/-- C6 witness: on the concrete store, user 10's message bumps 20's
counter from 0 to 1 and leaves 10's at 0, and symmetrically a message
from the second-listed participant 20 bumps 10's counter; with one
unread message from 10, user 20's no-ids read resets the counter to 0;
the explicit-ids read leaves the conversations untouched. -/
theorem c6_unread_counter_lifecycle_witness :
    (∃ c', findConv (create_message c6db 3 (some 1) 10 none "hi" none true).2 1 = some c' ∧
       getCount c'.unreadCounts 20 = getCount c6conv.unreadCounts 20 + 1 ∧
       getCount c'.unreadCounts 10 = getCount c6conv.unreadCounts 10) ∧
    (∃ c', findConv (create_message c6db 3 (some 1) 20 none "yo" none true).2 1 = some c' ∧
       getCount c'.unreadCounts 10 = getCount c6conv.unreadCounts 10 + 1 ∧
       getCount c'.unreadCounts 20 = getCount c6conv.unreadCounts 20) ∧
    (∃ c', findConv (mark_conversation_messages_as_read c10db 5 1 20).2 1 = some c' ∧
       getCount c'.unreadCounts 20 = 0) ∧
    ((mark_messages_read c10db 5 1 20 (some [1])).2).conversations =
      c10db.conversations :=
  ⟨c6_unread_counter_lifecycle.1 c6db 3 1 10 20 10 20 "hi" true c6conv (by decide)
     (by decide) (by decide) (Or.inl ⟨rfl, rfl⟩) (by decide),
   c6_unread_counter_lifecycle.1 c6db 3 1 10 20 20 10 "yo" true c6conv (by decide)
     (by decide) (by decide) (Or.inr ⟨rfl, rfl⟩) (by decide),
   c6_unread_counter_lifecycle.2.1 c10db 5 1 20
     { id := 1, participants := [10, 20], lastMessage := "hi", lastMessageTimestamp := some 1,
       unreadCounts := [(10, 0), (20, 1)], createdAt := 0, updatedAt := 1 }
     (by decide) (by decide),
   c6_unread_counter_lifecycle.2.2 c10db 5 1 20 1 []⟩

/-- The store for the C6 counterexample, first scenario: one unread
message from 10 and `unread_counts[20] = 1`. -/
def c6xdb : Db :=
  { users := [],
    conversations := [{ id := 1, participants := [10, 20], lastMessage := "hi",
                        lastMessageTimestamp := some 1,
                        unreadCounts := [(10, 0), (20, 1)], createdAt := 0,
                        updatedAt := 1 }],
    messages := [{ id := 1, conversationId := 1, senderId := 10, text := "hi",
                   attachments := [], timestamp := 1, isRead := false, readAt := none }],
    notifications := [], nextId := 5 }

/-- The store for the C6 counterexample, second scenario: counter 1 but
the only message already read (as the explicit-ids path leaves it). -/
def c6xdb2 : Db :=
  { users := [],
    conversations := [{ id := 1, participants := [10, 20], lastMessage := "hi",
                        lastMessageTimestamp := some 1,
                        unreadCounts := [(10, 0), (20, 1)], createdAt := 0,
                        updatedAt := 1 }],
    messages := [{ id := 1, conversationId := 1, senderId := 10, text := "hi",
                   attachments := [], timestamp := 1, isRead := true, readAt := some 2 }],
    notifications := [], nextId := 5 }

/-- C6 counterexample: after `read_receipt{message_ids:[msg1]}` by user
20, `msg1.is_read` is true but 20's unread counter is still 1, not 0 —
the explicit-ids path never resets it; and a subsequent no-ids read
finds nothing unread and also leaves the counter at 1. -/
theorem c6_counterexample_explicit_ids_no_reset :
    ((findMsg (mark_messages_read c6xdb 9 1 20 (some [1])).2 1).map Message.isRead =
      some true) ∧
    ((findConv (mark_messages_read c6xdb 9 1 20 (some [1])).2 1).map
        (fun c => getCount c.unreadCounts 20) = some 1) ∧
    ((findConv (mark_messages_read c6xdb2 9 1 20 none).2 1).map
        (fun c => getCount c.unreadCounts 20) = some 1) := by decide

/-- The message ids carried by `missed_message` frames, in emission
order. -/
def frameMsgIds : List Frame → List Nat
  | [] => []
  | Frame.missedMessage _ m :: fs => m.id :: frameMsgIds fs
  | _ :: fs => frameMsgIds fs

theorem frameMsgIds_map (cid : Nat) (l : List Message) :
    frameMsgIds (l.map (fun m => Frame.missedMessage cid m)) = l.map Message.id := by
  induction l with
  | nil => rfl
  | cons x xs ih => simp [frameMsgIds, ih]

theorem frameMsgIds_append (l1 l2 : List Frame) :
    frameMsgIds (l1 ++ l2) = frameMsgIds l1 ++ frameMsgIds l2 := by
  induction l1 with
  | nil => rfl
  | cons f fs ih =>
    cases f <;> simp [frameMsgIds, ih]

/-- The emission loop grows the dedup set by exactly the emitted ids,
emits no duplicate id, and emits nothing already in the set. -/
theorem emitMissed_spec (l : List Message) : ∀ sent : List Nat,
    (emitMissed sent l).2 = sent ++ ((emitMissed sent l).1.map Message.id) ∧
    ((emitMissed sent l).1.map Message.id).Nodup ∧
    (∀ i ∈ (emitMissed sent l).1.map Message.id, i ∉ sent) := by
  induction l with
  | nil => intro sent; simp [emitMissed]
  | cons m ms ih =>
    intro sent
    by_cases hmem : m.id ∈ sent
    · simp only [emitMissed, if_pos hmem]
      exact ih sent
    · obtain ⟨h1, h2, h3⟩ := ih (sent ++ [m.id])
      simp only [emitMissed, if_neg hmem, List.map_cons]
      refine ⟨?_, ?_, ?_⟩
      · rw [h1, List.append_assoc]
        rfl
      · rw [List.nodup_cons]
        refine ⟨?_, h2⟩
        intro hin
        exact h3 m.id hin (by simp)
      · intro i hi
        rcases List.mem_cons.mp hi with hi | hi
        · subst hi; exact hmem
        · intro hisent
          exact h3 i hi (by simp [hisent])

/-- One conversation replay: the dedup set grows by exactly the ids of
the emitted `missed_message` frames, those ids are pairwise distinct
and none of them was already in the set; the session user is
unchanged. -/
theorem replayOne_spec (db : Db) (s : SessState) (conv : Conversation) :
    (replayOne db s conv).2.sentMessageIds =
      s.sentMessageIds ++ frameMsgIds (replayOne db s conv).1 ∧
    (frameMsgIds (replayOne db s conv).1).Nodup ∧
    (∀ i ∈ frameMsgIds (replayOne db s conv).1, i ∉ s.sentMessageIds) ∧
    (replayOne db s conv).2.mongoUserId = s.mongoUserId := by
  simp only [replayOne]
  by_cases hg : ("chat_" ++ toString conv.id) ∈ s.conversationGroups
  · simp only [if_pos hg]
    split
    · simp [frameMsgIds]
    · rename_i t hls
      obtain ⟨e1, e2, e3⟩ :=
        emitMissed_spec (get_messages_after_timestamp db conv.id t 50) s.sentMessageIds
      rw [frameMsgIds_map]
      exact ⟨e1, e2, e3, rfl⟩
  · simp only [if_neg hg]
    split
    · simp [frameMsgIds]
    · rename_i t hls
      obtain ⟨e1, e2, e3⟩ :=
        emitMissed_spec (get_messages_after_timestamp db conv.id t 50) s.sentMessageIds
      rw [frameMsgIds_map]
      exact ⟨e1, e2, e3, rfl⟩

/-- The whole conversation loop: the dedup set grows by exactly the
emitted ids, which are pairwise distinct and disjoint from the starting
set. -/
theorem replayAll_spec (db : Db) : ∀ (convs : List Conversation) (s : SessState),
    (replayAll db s convs).2.sentMessageIds =
      s.sentMessageIds ++ frameMsgIds (replayAll db s convs).1 ∧
    (frameMsgIds (replayAll db s convs).1).Nodup ∧
    (∀ i ∈ frameMsgIds (replayAll db s convs).1, i ∉ s.sentMessageIds) := by
  intro convs
  induction convs with
  | nil => intro s; simp [replayAll, frameMsgIds]
  | cons c cs ih =>
    intro s
    obtain ⟨o1, o2, o3, _⟩ := replayOne_spec db s c
    obtain ⟨a1, a2, a3⟩ := ih (replayOne db s c).2
    simp only [replayAll]
    rw [frameMsgIds_append]
    refine ⟨?_, ?_, ?_⟩
    · rw [a1, o1, List.append_assoc]
    · refine List.Nodup.append o2 a2 ?_
      intro i hi1 hi2
      have hnot := a3 i hi2
      rw [o1] at hnot
      exact hnot (List.mem_append.mpr (Or.inr hi1))
    · intro i hi
      rcases List.mem_append.mp hi with hi | hi
      · exact o3 i hi
      · intro hisent
        have hnot := a3 i hi
        rw [o1] at hnot
        exact hnot (List.mem_append.mpr (Or.inl hisent))

/-- C1 (amended): `get_messages_after_timestamp` returns messages of
the conversation with timestamp strictly greater than the cursor,
sorted ascending by timestamp, and — whenever at most `limit` messages
qualify — exactly those messages; and across two consecutive
invocations of `reconnect_to_conversations` on one connection, the
emitted `missed_message` ids are pairwise distinct and never repeat an
id already delivered on the connection. -/
theorem c1_missed_message_replay :
    (∀ (db : Db) (cid T limit : Nat),
      List.Sorted tsLe (get_messages_after_timestamp db cid T limit) ∧
      (∀ m ∈ get_messages_after_timestamp db cid T limit,
        m.conversationId = cid ∧ T < m.timestamp) ∧
      (db.messages.countP (fun m => m.conversationId == cid && T < m.timestamp) ≤ limit →
        ∀ m, m ∈ get_messages_after_timestamp db cid T limit ↔
          (m ∈ db.messages ∧ m.conversationId = cid ∧ T < m.timestamp))) ∧
    (∀ (db db2 : Db) (s : SessState),
      (frameMsgIds (reconnect_to_conversations db s).1 ++
        frameMsgIds (reconnect_to_conversations db2 (reconnect_to_conversations db s).2).1).Nodup ∧
      (∀ i ∈ frameMsgIds (reconnect_to_conversations db s).1 ++
          frameMsgIds (reconnect_to_conversations db2 (reconnect_to_conversations db s).2).1,
        i ∉ s.sentMessageIds)) := by
  constructor
  · intro db cid T limit
    refine ⟨?_, ?_, ?_⟩
    · exact List.Pairwise.sublist (List.take_sublist limit _)
        (List.sorted_insertionSort tsLe
          (db.messages.filter (fun m => m.conversationId == cid && T < m.timestamp)))
    · intro m hm
      have hm2 : m ∈ List.insertionSort tsLe
          (db.messages.filter (fun m => m.conversationId == cid && T < m.timestamp)) :=
        List.take_subset limit _ hm
      have hm3 := (List.mem_insertionSort tsLe).mp hm2
      have hm4 := List.mem_filter.mp hm3
      simpa using hm4.2
    · intro hcount m
      have hlen : (List.insertionSort tsLe
          (db.messages.filter (fun m => m.conversationId == cid && T < m.timestamp))).length ≤ limit := by
        rw [List.length_insertionSort, ← List.countP_eq_length_filter]
        exact hcount
      rw [get_messages_after_timestamp, List.take_of_length_le hlen]
      rw [List.mem_insertionSort, List.mem_filter]
      simp
  · intro db db2 s
    obtain ⟨b1, b2, b3⟩ := replayAll_spec db (get_user_conversations db s.mongoUserId) s
    obtain ⟨d1, d2, d3⟩ := replayAll_spec db2
      (get_user_conversations db2 (reconnect_to_conversations db s).2.mongoUserId)
      (reconnect_to_conversations db s).2
    simp only [reconnect_to_conversations] at *
    refine ⟨?_, ?_⟩
    · refine List.Nodup.append b2 d2 ?_
      intro i hi1 hi2
      have hnot := d3 i hi2
      rw [b1] at hnot
      exact hnot (List.mem_append.mpr (Or.inr hi1))
    · intro i hi
      rcases List.mem_append.mp hi with hi | hi
      · exact b3 i hi
      · intro hisent
        have hnot := d3 i hi
        rw [b1] at hnot
        exact hnot (List.mem_append.mpr (Or.inl hisent))

/-- The two messages of the C1 witness store. -/
def c1wm1 : Message :=
  { id := 1, conversationId := 1, senderId := 7, text := "a",
    attachments := [], timestamp := 1, isRead := false, readAt := none }

/-- The newer message of the C1 witness store. -/
def c1wm2 : Message :=
  { id := 2, conversationId := 1, senderId := 7, text := "b",
    attachments := [], timestamp := 2, isRead := false, readAt := none }

/-- The C1 witness store. -/
def c1wdb : Db :=
  { users := [], conversations := [], messages := [c1wm1, c1wm2],
    notifications := [], nextId := 3 }

/-- C1 witness: in the two-message store (within the cap) the
characterization theorem yields the concrete membership of the newer
message in the replay window after timestamp 0. -/
theorem c1_missed_message_replay_witness :
    c1wm2 ∈ get_messages_after_timestamp c1wdb 1 0 50 :=
  ((c1_missed_message_replay.1 c1wdb 1 0 50).2.2 (by decide) c1wm2).mpr (by decide)

/-- A message of the 51-message C1 store. -/
def c1mkMsg (i : Nat) : Message :=
  { id := i, conversationId := 1, senderId := 7, text := "t",
    attachments := [], timestamp := i, isRead := false, readAt := none }

/-- The C1 store with 51 messages, all newer than timestamp 0. -/
def c1bigDb : Db :=
  { users := [], conversations := [],
    messages := (List.range 51).map (fun i => c1mkMsg (i + 1)),
    notifications := [], nextId := 60 }

/-- C1 counterexample: with 51 qualifying messages, the replay query
(whose `limit` is 50 in `reconnect_to_conversations` and by default)
omits the newest qualifying message, so it does not return exactly the
messages with timestamp greater than the cursor. -/
theorem c1_counterexample_limit :
    c1mkMsg 51 ∈ c1bigDb.messages ∧ (c1mkMsg 51).conversationId = 1 ∧
    0 < (c1mkMsg 51).timestamp ∧
    c1mkMsg 51 ∉ get_messages_after_timestamp c1bigDb 1 0 50 := by decide

end SkillSwap
